import Mathlib

/-!
Shallow embedding of the Ansible `alternatives` module
(`lib/ansible/modules/system/alternatives.py`), which reconciles the
selected alternative for a named command against a desired state using the
external `update-alternatives` tool as oracle.

The embedding models:
* the textual parsers of `get_current` (the `--display` regexes and the
  `--query` line scan), faithfully to Python `re` semantics on the
  patterns used (multiline anchors, greedy capture, one-character `\s`);
* `get_current`, `set_alternative`, `remove_alternative` and the `main`
  dispatch as functions that also record the oracle commands issued;
* the oracle's own state transition for each command, from the spec's
  description of the external tool (which is not part of this repository).
-/

namespace Alternatives

/-- Python whitespace, as matched by the one-character regex class `\s` and
by `str.split()` with no separator. -/
def pyWhitespace (c : Char) : Bool :=
  c = ' ' || c = '\t' || c = '\n' || c = '\r' || c = '\x0b' || c = '\x0c'

/-- Split a character list at newline characters, keeping empty lines; this
is the line structure observed by the `re.MULTILINE` anchors and by the
per-line scans of the module. -/
def splitLinesCh : List Char → List Char → List (List Char)
  | [], acc => [acc.reverse]
  | '\n' :: rest, acc => acc.reverse :: splitLinesCh rest []
  | c :: rest, acc => splitLinesCh rest (c :: acc)

/-- The lines of a string. -/
def lines (s : String) : List (List Char) :=
  splitLinesCh s.toList []

/-- The literal text of `current_path_regex` before its capture group. -/
def currentPointerText : List Char :=
  "link currently points to ".toList

/-- One line against `^\s*link currently points to (.*)$`: leading
whitespace, the literal text, then the capture runs to the end of the
line. -/
def currentPathOfLine (l : List Char) : Option (List Char) :=
  let t := l.dropWhile fun c => pyWhitespace c
  if currentPointerText.isPrefixOf t then
    some (t.drop currentPointerText.length)
  else
    none

/-- `current_path_regex.search(display_output).group(1)`: the capture of the
first line that matches, if any. -/
def parseCurrentPath (out : String) : Option String :=
  ((lines out).findSome? currentPathOfLine).map fun l => String.mk l

/-- Does `\s-\spriority` match at the head of `cs`? Each `\s` is a single
whitespace character. -/
def dashPriorityAt : List Char → Bool
  | c1 :: '-' :: c2 :: rest =>
      pyWhitespace c1 && pyWhitespace c2 && "priority".toList.isPrefixOf rest
  | _ => false

/-- One line against `^(\/.*)\s-\spriority`: the line must start with `/`,
and the greedy `.*` extends the capture to the last position at which
`\s-\spriority` still matches. -/
def altCaptureOfLine (l : List Char) : Option (List Char) :=
  match l with
  | '/' :: _ =>
      match ((List.range l.length).filter fun k =>
          decide (1 ≤ k) && dashPriorityAt (l.drop k)).getLast? with
      | some k => some (l.take k)
      | none => none
  | _ => none

/-- `alternative_regex.findall(display_output)`: the captures of every
matching line, in order. -/
def parseAlternatives (out : String) : List String :=
  ((lines out).filterMap altCaptureOfLine).map fun l => String.mk l

/-- `str.split()` with no separator: split at whitespace runs, dropping
empty tokens. -/
def pySplit : List Char → List Char → List (List Char)
  | [], [] => []
  | [], acc => [acc.reverse]
  | c :: rest, acc =>
      if pyWhitespace c then
        if acc.isEmpty then pySplit rest []
        else acc.reverse :: pySplit rest []
      else pySplit rest (c :: acc)

/-- The first `--query` output line starting with `Link:`, if any. -/
def findLinkLine (out : String) : Option (List Char) :=
  (lines out).find? fun l => "Link:".toList.isPrefixOf l

/-- `line.split()[1]`: the second whitespace-delimited token, or `none` when
the Python would raise `IndexError`. -/
def secondToken (l : List Char) : Option String :=
  ((pySplit l []).get? 1).map fun t => String.mk t

/-- One invocation of the `update-alternatives` oracle. -/
inductive Cmd
  | display (name : String)
  | query (name : String)
  | install (link name path : String) (priority : Int)
  | set (name path : String)
  | remove (name path : String)
  deriving DecidableEq

/-- Whether a command mutates the oracle's database. -/
def Cmd.isMutating : Cmd → Bool
  | .display _ => false
  | .query _ => false
  | _ => true

/-- The exception a probe can raise: the `.group(1)` call on a failed
search (`AttributeError`, the parse failure), or `line.split()[1]` on a
short `Link:` line (`IndexError`). -/
inductive ProbeError
  | parseError
  | indexError
  deriving DecidableEq

/-- The triple returned by `get_current`. -/
structure ProbeResult where
  currentPath : Option String
  alternatives : List String
  link : Option String
  deriving DecidableEq

/-- The observable behaviour of the oracle for one probe: exit status and
standard output of `--display <name>` and of `--query <name>`. -/
structure Oracle where
  displayRc : Int
  displayOut : String
  queryRc : Int
  queryOut : String

/-- Python truthiness of the `link` value, as tested by `if not link:`. -/
def linkFalsy : Option String → Bool
  | none => true
  | some s => s = ""

/-- Embedding of `get_current(module, cmd, name, link)`: the parsed probe
result (or the exception raised), together with the oracle commands
issued, in order. -/
def get_current (name : String) (o : Oracle) (link : Option String) :
    Except ProbeError ProbeResult × List Cmd :=
  if o.displayRc = 0 then
    match parseCurrentPath o.displayOut with
    | none => (.error .parseError, [.display name])
    | some cp =>
      let alts := parseAlternatives o.displayOut
      if linkFalsy link then
        if o.queryRc = 0 then
          match findLinkLine o.queryOut with
          | some line =>
            match secondToken line with
            | some tok => (.ok ⟨some cp, alts, some tok⟩, [.display name, .query name])
            | none => (.error .indexError, [.display name, .query name])
          | none => (.ok ⟨some cp, alts, link⟩, [.display name, .query name])
        else (.ok ⟨some cp, alts, link⟩, [.display name, .query name])
      else (.ok ⟨some cp, alts, link⟩, [.display name])
  else (.ok ⟨none, [], link⟩, [.display name])

/-- How a run of the module ends: `exit_json(changed=...)` or
`fail_json`. -/
inductive FailKind
  | missingLink
  | cmdFailed
  deriving DecidableEq

/-- The terminal call of a run. -/
inductive ExitResult
  | exited (changed : Bool)
  | failed (kind : FailKind)
  deriving DecidableEq

/-- The outcome of a run: its terminal result and the oracle commands it
issued, in order (a failing command is recorded and aborts the rest). -/
structure Outcome where
  result : ExitResult
  cmds : List Cmd
  deriving DecidableEq

/-- Embedding of `set_alternative(...)`. `exec` gives the success of each
mutating oracle command; `check_rc=True` turns the first failure into a
`fail_json`, skipping the remaining commands. -/
def set_alternative (checkMode : Bool) (name path : String) (link : Option String)
    (priority : Int) (currentPath : Option String) (alts : List String)
    (exec : Cmd → Bool) : Outcome :=
  if currentPath = some path then ⟨.exited false, []⟩
  else if checkMode then ⟨.exited true, []⟩
  else if path ∈ alts then
    let c := Cmd.set name path
    if exec c then ⟨.exited true, [c]⟩ else ⟨.failed .cmdFailed, [c]⟩
  else if linkFalsy link then ⟨.failed .missingLink, []⟩
  else
    let c1 := Cmd.install (link.getD "") name path priority
    if exec c1 then
      let c2 := Cmd.set name path
      if exec c2 then ⟨.exited true, [c1, c2]⟩ else ⟨.failed .cmdFailed, [c1, c2]⟩
    else ⟨.failed .cmdFailed, [c1]⟩

/-- Embedding of `remove_alternative(...)`. Note that it never consults
`module.check_mode`. -/
def remove_alternative (name path : String) (alts : List String)
    (exec : Cmd → Bool) : Outcome :=
  if path ∈ alts then
    let c := Cmd.remove name path
    if exec c then ⟨.exited true, [c]⟩ else ⟨.failed .cmdFailed, [c]⟩
  else ⟨.exited false, []⟩

/-- The `state` parameter; the argument spec restricts it to these two
choices. -/
inductive AltAction
  | present
  | absent
  deriving DecidableEq

/-- The dispatch at the end of `main()`, after `get_current` has produced
the probed `current_path` and `all_alternatives`. -/
def run_module (checkMode : Bool) (state : AltAction) (name path : String)
    (link : Option String) (priority : Int) (currentPath : Option String)
    (alts : List String) (exec : Cmd → Bool) : Outcome :=
  match state with
  | .present => set_alternative checkMode name path link priority currentPath alts exec
  | .absent => remove_alternative name path alts exec

/-- One alternatives group as held by the oracle. -/
structure AltState where
  current : Option String
  candidates : List String
  deriving DecidableEq

/-- Modelled from the spec: the effect of each oracle command on the
oracle's own database for the group (the `update-alternatives` tool itself
is not part of this repository). `install` registers a candidate, `set`
selects a candidate as current, `remove` deregisters a candidate;
`display` and `query` are read-only. -/
def stepCmd (s : AltState) : Cmd → AltState
  | .install _ _ p _ =>
      if p ∈ s.candidates then s else { s with candidates := s.candidates ++ [p] }
  | .set _ p => { s with current := some p }
  | .remove _ p =>
      { current := if s.current = some p then none else s.current,
        candidates := s.candidates.erase p }
  | _ => s

/-- The oracle state after a sequence of commands. -/
def runCmds (s : AltState) (cs : List Cmd) : AltState :=
  cs.foldl stepCmd s

/-- C1: refuted on the Remove plan. Under check mode (`dryRun=true`) with
`state=absent` and the desired path among the candidates,
`remove_alternative` never consults `module.check_mode`: the module issues
the mutating `--remove` oracle command, the oracle's state changes, and
`changed=true` is reported only after the mutation. -/
theorem c1_checkmode_remove_runs_mutating_command :
    (run_module true .absent "vi" "/usr/bin/vim.tiny" none 50
        (some "/usr/bin/vim.basic") ["/usr/bin/vim.basic", "/usr/bin/vim.tiny"]
        (fun _ => true)).cmds = [Cmd.remove "vi" "/usr/bin/vim.tiny"]
    ∧ (Cmd.remove "vi" "/usr/bin/vim.tiny").isMutating = true
    ∧ runCmds ⟨some "/usr/bin/vim.basic", ["/usr/bin/vim.basic", "/usr/bin/vim.tiny"]⟩
          [Cmd.remove "vi" "/usr/bin/vim.tiny"]
        ≠ ⟨some "/usr/bin/vim.basic", ["/usr/bin/vim.basic", "/usr/bin/vim.tiny"]⟩
    ∧ (run_module true .absent "vi" "/usr/bin/vim.tiny" none 50
        (some "/usr/bin/vim.basic") ["/usr/bin/vim.basic", "/usr/bin/vim.tiny"]
        (fun _ => true)).result = .exited true := by
  refine ⟨by decide, rfl, by decide, by decide⟩

/-- C2 counterexample: with `dryRun=true`, `state=present`, the desired path
not among the (empty) candidates and no link available, the module reports
`changed=true` instead of failing with the missing-link error. -/
theorem c2_checkmode_skips_missing_link_failure :
    run_module true .present "ed" "/bin/ed" none 50 none [] (fun _ => true)
      = ⟨.exited true, []⟩
    ∧ (run_module true .present "ed" "/bin/ed" none 50 none [] (fun _ => true)).result
      ≠ .failed .missingLink := by
  refine ⟨by decide, by decide⟩

/-- C2 (amended): in a real run (`dryRun=false`) with `state=present`, if
the probed current path differs from the desired path, the desired path is
not among the candidates and no link is available, the module fails with
the missing-link error and issues no oracle command at all; under
`dryRun=true` the check-mode early exit reports `changed=true` before the
missing-link check is reached. -/
theorem c2_missing_link_fails_real_run (name path : String) (link : Option String)
    (priority : Int) (currentPath : Option String) (alts : List String)
    (exec : Cmd → Bool) (hcur : currentPath ≠ some path) (hmem : path ∉ alts)
    (hlink : linkFalsy link = true) :
    run_module false .present name path link priority currentPath alts exec
      = ⟨.failed .missingLink, []⟩ := by
  simp [run_module, set_alternative, hcur, hmem, hlink]

/-- Witness for C2's amended theorem at a concrete input. -/
theorem c2_missing_link_fails_real_run_witness :
    run_module false .present "ed" "/bin/ed" none 50 none [] (fun _ => true)
      = ⟨.failed .missingLink, []⟩ :=
  c2_missing_link_fails_real_run "ed" "/bin/ed" none 50 none [] (fun _ => true)
    (by decide) (by decide) (by decide)

/-- C3: when `--display` succeeds but its output contains no
`link currently points to` line, `get_current` raises the parse failure
(the `.group(1)` call on a failed search) instead of returning a probe
result with a defaulted current path. -/
theorem c3_parse_error_surfaced (name : String) (o : Oracle) (link : Option String)
    (hrc : o.displayRc = 0) (hparse : parseCurrentPath o.displayOut = none) :
    (get_current name o link).1 = .error .parseError := by
  simp [get_current, hrc, hparse]

/-- Witness for C3 at a concrete oracle output with no pointer line. -/
theorem c3_parse_error_surfaced_witness :
    (get_current "ed" ⟨0, "no alternatives for ed", 0, ""⟩ none).1
      = .error .parseError :=
  c3_parse_error_surfaced "ed" ⟨0, "no alternatives for ed", 0, ""⟩ none rfl (by decide)

/-- C5: with `state=absent`, a registered path is removed with exactly the
`--remove` command and `changed=true` (when the oracle command succeeds),
while an unregistered path reports `changed=false` with no oracle command
and no error. -/
theorem c5_remove_semantics (checkMode : Bool) (name path : String)
    (link : Option String) (priority : Int) (currentPath : Option String)
    (alts : List String) (exec : Cmd → Bool) :
    (path ∈ alts → exec (Cmd.remove name path) = true →
      run_module checkMode .absent name path link priority currentPath alts exec
        = ⟨.exited true, [Cmd.remove name path]⟩)
    ∧ (path ∉ alts →
      run_module checkMode .absent name path link priority currentPath alts exec
        = ⟨.exited false, []⟩) := by
  constructor
  · intro hm hx
    simp [run_module, remove_alternative, hm, hx]
  · intro hm
    simp [run_module, remove_alternative, hm]

/-- Witness for C5, exercising both the registered and the unregistered
branch at concrete inputs. -/
theorem c5_remove_semantics_witness :
    run_module false .absent "x" "/b" none 50 (some "/a") ["/a", "/b"] (fun _ => true)
      = ⟨.exited true, [Cmd.remove "x" "/b"]⟩
    ∧ run_module false .absent "x" "/c" none 50 (some "/a") ["/a", "/b"] (fun _ => true)
      = ⟨.exited false, []⟩ :=
  ⟨(c5_remove_semantics false "x" "/b" none 50 (some "/a") ["/a", "/b"]
      (fun _ => true)).1 (by decide) rfl,
   (c5_remove_semantics false "x" "/c" none 50 (some "/a") ["/a", "/b"]
      (fun _ => true)).2 (by decide)⟩

/-- C6: a failing `--display` makes `get_current` return no current path,
no candidates and the link unchanged, without error, and issue only the
`--display` command — `--query` is never run. -/
theorem c6_display_failure_not_registered (name : String) (o : Oracle)
    (link : Option String) (hrc : o.displayRc ≠ 0) :
    get_current name o link = (.ok ⟨none, [], link⟩, [Cmd.display name]) := by
  simp [get_current, hrc]

/-- Witness for C6 at a concrete failing display. -/
theorem c6_display_failure_not_registered_witness :
    get_current "x" ⟨2, "", 0, ""⟩ none = (.ok ⟨none, [], none⟩, [Cmd.display "x"]) :=
  c6_display_failure_not_registered "x" ⟨2, "", 0, ""⟩ none (by decide)

/-- C7: parse fidelity of `get_current`'s regexes on the concrete display
output of the spec. -/
theorem c7_parse_fidelity :
    parseCurrentPath
        "link currently points to /usr/bin/vim.basic\n/usr/bin/vim.basic - priority 30\n/usr/bin/vim.tiny - priority 10\n"
      = some "/usr/bin/vim.basic"
    ∧ parseAlternatives
        "link currently points to /usr/bin/vim.basic\n/usr/bin/vim.basic - priority 30\n/usr/bin/vim.tiny - priority 10\n"
      = ["/usr/bin/vim.basic", "/usr/bin/vim.tiny"] := by
  refine ⟨by decide, by decide⟩

/-- C4: with `state=present`, a probed current path equal to the desired
path reports `changed=false` with no oracle command; and whenever a real
(`dryRun=false`) run reports `changed=true`, rerunning against the oracle
state stepped by the issued commands reports `changed=false` with no
oracle command. -/
theorem c4_idempotence (name path : String) (link : Option String) (priority : Int)
    (s : AltState) (exec : Cmd → Bool) (o : Outcome)
    (ho : o = run_module false .present name path link priority s.current s.candidates exec) :
    (s.current = some path → o = ⟨.exited false, []⟩)
    ∧ (o.result = .exited true →
      run_module false .present name path link priority (runCmds s o.cmds).current
        (runCmds s o.cmds).candidates exec = ⟨.exited false, []⟩) := by
  subst ho
  by_cases h1 : s.current = some path
  · constructor
    · intro _
      simp [run_module, set_alternative, h1]
    · intro hres
      exfalso
      simp [run_module, set_alternative, h1] at hres
  · refine ⟨fun h => absurd h h1, ?_⟩
    by_cases h2 : path ∈ s.candidates
    · by_cases hs : exec (Cmd.set name path) = true
      · intro _
        simp [run_module, set_alternative, h1, h2, hs, runCmds, stepCmd]
      · intro hres
        exfalso
        simp [run_module, set_alternative, h1, h2, hs] at hres
    · by_cases hl : linkFalsy link = true
      · intro hres
        exfalso
        simp [run_module, set_alternative, h1, h2, hl] at hres
      · by_cases hi : exec (Cmd.install (link.getD "") name path priority) = true
        · by_cases hs : exec (Cmd.set name path) = true
          · intro _
            simp [run_module, set_alternative, h1, h2, hl, hi, hs, runCmds, stepCmd]
          · intro hres
            exfalso
            simp [run_module, set_alternative, h1, h2, hl, hi, hs] at hres
        · intro hres
          exfalso
          simp [run_module, set_alternative, h1, h2, hl, hi] at hres

/-- Witness for C4: a real run that selects an already-registered candidate
reports `changed=true`, and the rerun against the stepped oracle state
reports `changed=false` with no commands. -/
theorem c4_idempotence_witness :
    run_module false .present "x" "/b" none 50
        (runCmds ⟨some "/a", ["/a", "/b"]⟩
          (run_module false .present "x" "/b" none 50 (some "/a") ["/a", "/b"]
            (fun _ => true)).cmds).current
        (runCmds ⟨some "/a", ["/a", "/b"]⟩
          (run_module false .present "x" "/b" none 50 (some "/a") ["/a", "/b"]
            (fun _ => true)).cmds).candidates
        (fun _ => true)
      = ⟨.exited false, []⟩ :=
  (c4_idempotence "x" "/b" none 50 ⟨some "/a", ["/a", "/b"]⟩ (fun _ => true)
      (run_module false .present "x" "/b" none 50 (some "/a") ["/a", "/b"]
        (fun _ => true)) rfl).2 (by decide)

/-- C8: for a real Install&Select run (current path differs, desired path
unregistered, link available), `--install` is issued strictly before
`--set`; if every command succeeds the run reports `changed=true`; a failed
`--set` surfaces a failure; and a failed `--install` surfaces a failure
with `--set` never issued. -/
theorem c8_install_then_set_order (name path l : String) (priority : Int)
    (currentPath : Option String) (alts : List String) (exec : Cmd → Bool)
    (hcur : currentPath ≠ some path) (hmem : path ∉ alts) (hl : l ≠ "") :
    (exec (Cmd.install l name path priority) = true →
      exec (Cmd.set name path) = true →
      run_module false .present name path (some l) priority currentPath alts exec
        = ⟨.exited true, [Cmd.install l name path priority, Cmd.set name path]⟩)
    ∧ (exec (Cmd.install l name path priority) = true →
      exec (Cmd.set name path) = false →
      run_module false .present name path (some l) priority currentPath alts exec
        = ⟨.failed .cmdFailed, [Cmd.install l name path priority, Cmd.set name path]⟩)
    ∧ (exec (Cmd.install l name path priority) = false →
      run_module false .present name path (some l) priority currentPath alts exec
        = ⟨.failed .cmdFailed, [Cmd.install l name path priority]⟩) := by
  have hlf : linkFalsy (some l) = false := by simp [linkFalsy, hl]
  refine ⟨?_, ?_, ?_⟩
  · intro hi hs
    simp [run_module, set_alternative, hcur, hmem, hlf, hi, hs]
  · intro hi hs
    simp [run_module, set_alternative, hcur, hmem, hlf, hi, hs]
  · intro hi
    simp [run_module, set_alternative, hcur, hmem, hlf, hi]

/-- Witness for C8, exercising all three command-success patterns at
concrete inputs. -/
theorem c8_install_then_set_order_witness :
    run_module false .present "x" "/b" (some "/l") 50 (some "/a") [] (fun _ => true)
      = ⟨.exited true, [Cmd.install "/l" "x" "/b" 50, Cmd.set "x" "/b"]⟩
    ∧ run_module false .present "x" "/b" (some "/l") 50 (some "/a") []
        (fun c => decide (c ≠ Cmd.set "x" "/b"))
      = ⟨.failed .cmdFailed, [Cmd.install "/l" "x" "/b" 50, Cmd.set "x" "/b"]⟩
    ∧ run_module false .present "x" "/b" (some "/l") 50 (some "/a") [] (fun _ => false)
      = ⟨.failed .cmdFailed, [Cmd.install "/l" "x" "/b" 50]⟩ :=
  ⟨(c8_install_then_set_order "x" "/b" "/l" 50 (some "/a") [] (fun _ => true)
      (by decide) (by decide) (by decide)).1 rfl rfl,
   (c8_install_then_set_order "x" "/b" "/l" 50 (some "/a") []
      (fun c => decide (c ≠ Cmd.set "x" "/b"))
      (by decide) (by decide) (by decide)).2.1 (by decide) (by decide),
   (c8_install_then_set_order "x" "/b" "/l" 50 (some "/a") [] (fun _ => false)
      (by decide) (by decide) (by decide)).2.2 rfl⟩

/-- C9: `--query` is issued only when the supplied link is absent (or
empty) and `--display` succeeded; on a successful query the resolved link
is the second whitespace token of the first `Link:` line; a failed query or
a missing `Link:` line leaves the link absent, without failing. -/
theorem c9_link_resolver (name : String) (o : Oracle) :
    (∀ link : Option String,
      Cmd.query name ∈ (get_current name o link).2 →
        linkFalsy link = true ∧ o.displayRc = 0)
    ∧ (∀ cp : String, o.displayRc = 0 → parseCurrentPath o.displayOut = some cp →
      (o.queryRc = 0 → ∀ line tok, findLinkLine o.queryOut = some line →
        secondToken line = some tok →
        (get_current name o none).1
          = .ok ⟨some cp, parseAlternatives o.displayOut, some tok⟩)
      ∧ (o.queryRc ≠ 0 →
        (get_current name o none).1
          = .ok ⟨some cp, parseAlternatives o.displayOut, none⟩)
      ∧ (o.queryRc = 0 → findLinkLine o.queryOut = none →
        (get_current name o none).1
          = .ok ⟨some cp, parseAlternatives o.displayOut, none⟩)) := by
  constructor
  · intro link hmem
    by_cases hrc : o.displayRc = 0
    · by_cases hlf : linkFalsy link = true
      · exact ⟨hlf, hrc⟩
      · exfalso
        cases hp : parseCurrentPath o.displayOut with
        | none => simp [get_current, hrc, hp] at hmem
        | some cp => simp [get_current, hrc, hp, hlf] at hmem
    · exfalso
      simp [get_current, hrc] at hmem
  · intro cp hrc hp
    refine ⟨?_, ?_, ?_⟩
    · intro hq line tok hline htok
      simp [get_current, hrc, hp, linkFalsy, hq, hline, htok]
    · intro hq
      simp [get_current, hrc, hp, linkFalsy, hq]
    · intro hq hline
      simp [get_current, hrc, hp, linkFalsy, hq, hline]

/-- Witness for C9 at a concrete oracle where the query resolves the
link. -/
theorem c9_link_resolver_witness :
    linkFalsy (none : Option String) = true
    ∧ (get_current "vi" ⟨0, "link currently points to /a\n", 0, "Link: /l\n"⟩ none).1
      = .ok ⟨some "/a", parseAlternatives "link currently points to /a\n", some "/l"⟩ :=
  ⟨((c9_link_resolver "vi" ⟨0, "link currently points to /a\n", 0, "Link: /l\n"⟩).1
      none (by decide)).1,
   ((c9_link_resolver "vi" ⟨0, "link currently points to /a\n", 0, "Link: /l\n"⟩).2
      "/a" rfl (by decide)).1 rfl ("Link: /l".toList) "/l" (by decide) (by decide)⟩

/-- C10: with `state=absent`, the post-probe outcome — terminal result and
oracle commands issued — does not depend on `link` or `priority`. -/
theorem c10_absent_independent_of_link_priority (checkMode : Bool)
    (name path : String) (link link' : Option String) (priority priority' : Int)
    (currentPath : Option String) (alts : List String) (exec : Cmd → Bool) :
    run_module checkMode .absent name path link priority currentPath alts exec
      = run_module checkMode .absent name path link' priority' currentPath alts exec :=
  rfl

end Alternatives
